import Mathlib

/-!
Verification of the RPi-NTCIP server core: a shallow embedding of the frame
codec (`ntcip_server/src/ntcip_parser.py`), the frame builders
(`ntcip_server/src/ntcip_communication.py`, `NTCIPServer.create_ack_frame`,
`NTCIPServer.create_nak_frame`), the message dispatcher
(`NTCIPServer.process_message`, `NTCIPServer._handle_basic_message`,
`NTCIPServer._create_setting_response`) and the per-datagram step of
`NTCIPServer.handle_client`.

Byte strings are `List Nat` whose entries are bytes (0..255).  Python
sequence indexing — including negative indices and the `IndexError` raised
on an out-of-range access — is modelled by `pyGet`; Python slicing, which
never raises, by `pySlice`.  A raised `IndexError` inside the parser
surfaces as `ParseResult.crash`; a recoverable reject (`return None`) is
`ParseResult.fail`.  The local wall clock consulted by the time-sync
handler (`time.localtime()`) is passed in explicitly as hour/minute/second
parameters.
-/

namespace NTCIP

/-- Control byte `DLE = 0xAA` (`NTCIPParser.__init__`). -/
def DLE : Nat := 0xAA

/-- Control byte `STX = 0xBB`. -/
def STX : Nat := 0xBB

/-- Control byte `ETX = 0xCC`. -/
def ETX : Nat := 0xCC

/-- Control byte `ACK = 0xDD`. -/
def ACK : Nat := 0xDD

/-- Control byte `NAK = 0xEE`. -/
def NAK : Nat := 0xEE

/-- XOR of a byte sequence (`NTCIPParser._xor_bytes`):
`cks = 0; for byte in data: cks ^= byte; return cks`. -/
def xorBytes (data : List Nat) : Nat := data.foldl (fun c b => c ^^^ b) 0

/-- Checksum (`NTCIPParser.calculate_cks`): for each of the three frame
types the checksum is the plain XOR of the supplied bytes. -/
def calculate_cks (data : List Nat) : Nat := xorBytes data

/-- Python `data[i]` on a byte string: a negative index counts from the
end; an out-of-range access raises `IndexError`, modelled as `none`. -/
def pyGet (l : List Nat) (i : Int) : Option Nat :=
  if i < 0 then
    if (-i).toNat ≤ l.length then l[l.length - (-i).toNat]? else none
  else
    l[i.toNat]?

/-- Normalisation of one endpoint of a Python slice `data[a:b]`: a
negative endpoint is taken from the end, then the endpoint is clamped
into `[0, len]`. -/
def pySliceBound (n : Nat) (i : Int) : Nat :=
  if i < 0 then n - min (-i).toNat n else min i.toNat n

/-- Python `data[a:b]` (slicing never raises). -/
def pySlice (l : List Nat) (a b : Int) : List Nat :=
  (l.take (pySliceBound l.length b)).drop (pySliceBound l.length a)

/-- A decoded frame, the dictionary returned by `NTCIPParser.parse_frame`:
`seq`, `addr`, the embedded 16-bit `length` field, and the `info`
(payload) bytes. -/
structure Frame where
  seq : Nat
  addr : Nat
  length : Nat
  info : List Nat
deriving DecidableEq

/-- Outcome of a parse: an uncaught `IndexError` (`crash`), a rejected
frame (`return None`, `fail`), or a decoded frame. -/
inductive ParseResult where
  | crash : ParseResult
  | fail : ParseResult
  | ok : Frame → ParseResult
deriving DecidableEq

/-- `NTCIPParser._parse_normal_frame`.  The caller guarantees
`len(data) >= 6`, `data[0] == DLE`, `data[1] == STX`.  Field reads follow
the Python source line by line:
`length = (data[5] << 8) | data[6]` (for byte-valued entries the
shift-or equals `data[5] * 256 + data[6]`); reject if
`len(data) < length`; reject unless `data[length-3] == DLE and
data[length-2] == ETX` (with Python short-circuit: the second access is not
evaluated when the first already differs); reject unless the XOR of
`data[:-1]` equals `data[-1]`; on success return
`seq = data[2]`, `addr = (data[3] << 8) | data[4]`,
`info = data[7:length-3]`. -/
def parse_normal_frame (data : List Nat) : ParseResult :=
  match pyGet data 5, pyGet data 6 with
  | some b5, some b6 =>
    let length := b5 * 256 + b6
    if data.length < length then .fail
    else
      match pyGet data ((length : Int) - 3) with
      | none => .crash
      | some e1 =>
        if e1 ≠ DLE then .fail
        else
          match pyGet data ((length : Int) - 2) with
          | none => .crash
          | some e2 =>
            if e2 ≠ ETX then .fail
            else
              match pyGet data (-1) with
              | none => .crash
              | some last =>
                if calculate_cks (pySlice data 0 (-1)) ≠ last then .fail
                else
                  match pyGet data 2, pyGet data 3, pyGet data 4 with
                  | some s, some a3, some a4 =>
                    .ok ⟨s, a3 * 256 + a4, length, pySlice data 7 ((length : Int) - 3)⟩
                  | _, _, _ => .crash
  | _, _ => .crash

/-- `NTCIPParser._parse_ack_frame`: reject unless the total length is 8;
`seq = data[2]`, `addr = data[3:5]` big-endian, `length = data[5:7]`
big-endian; reject unless `length == 8`; reject unless the XOR of
`data[:-1]` equals `data[-1]`; the `info` field is empty. -/
def parse_ack_frame (data : List Nat) : ParseResult :=
  if data.length ≠ 8 then .fail
  else
    match pyGet data 2, pyGet data 3, pyGet data 4, pyGet data 5, pyGet data 6,
          pyGet data (-1) with
    | some s, some a3, some a4, some l5, some l6, some last =>
      let addr := a3 * 256 + a4
      let length := l5 * 256 + l6
      if length ≠ 8 then .fail
      else if last ≠ calculate_cks (pySlice data 0 (-1)) then .fail
      else .ok ⟨s, addr, length, []⟩
    | _, _, _, _, _, _ => .crash

/-- `NTCIPParser._parse_nak_frame`: reject unless the total length is 9;
re-check `data[0] == DLE and data[1] == NAK`; reject unless the embedded
length field equals 9; the error code is `data[7]` and is rejected unless
it is one of `0x01, 0x02, 0x04, 0x08`; reject unless the XOR of
`data[:-1]` equals `data[-1]`; the `info` field is the single error-code
byte. -/
def parse_nak_frame (data : List Nat) : ParseResult :=
  if data.length ≠ 9 then .fail
  else
    match pyGet data 0, pyGet data 1, pyGet data 2, pyGet data 3, pyGet data 4,
          pyGet data 5, pyGet data 6, pyGet data 7, pyGet data (-1) with
    | some b0, some b1, some s, some a3, some a4, some l5, some l6, some err,
      some last =>
      if b0 ≠ DLE ∨ b1 ≠ NAK then .fail
      else
        let addr := a3 * 256 + a4
        let length := l5 * 256 + l6
        if length ≠ 9 then .fail
        else if err ∉ [0x01, 0x02, 0x04, 0x08] then .fail
        else if last ≠ calculate_cks (pySlice data 0 (-1)) then .fail
        else .ok ⟨s, addr, length, [err]⟩
    | _, _, _, _, _, _, _, _, _ => .crash

/-- `NTCIPParser.parse_frame`: reject inputs shorter than 6 bytes; reject
unless `data[0] == DLE`; dispatch on `data[1]`
(`STX`/`ACK`/`NAK`), rejecting any other second byte. -/
def parse_frame (data : List Nat) : ParseResult :=
  if data.length < 6 then .fail
  else
    match pyGet data 0 with
    | none => .crash
    | some b0 =>
      if b0 ≠ DLE then .fail
      else
        match pyGet data 1 with
        | none => .crash
        | some b1 =>
          if b1 = STX then parse_normal_frame data
          else if b1 = ACK then parse_ack_frame data
          else if b1 = NAK then parse_nak_frame data
          else .fail

/-- `NTCIPParser.parse_message_type`: reject an `info` of fewer than two
bytes, else split it into `(type, code, data) = (info[0], info[1],
info[2:])`. -/
def parse_message_type (info : List Nat) : Option (Nat × Nat × List Nat) :=
  if info.length < 2 then none
  else some (info.getD 0 0, info.getD 1 0, info.drop 2)

/-- Big-endian two-byte encoding, Python `n.to_bytes(2, 'big')` (defined
for `n < 65536`; larger values raise `OverflowError` in Python, so every
theorem about an encoder carries the corresponding bound). -/
def toBytes2 (n : Nat) : List Nat := [n / 256 % 256, n % 256]

/-- `NTCIPCommunication.create_data_request`: the length field is
`total_length = 9 + len(info)` — the byte count from the leading `DLE`
through the trailing `ETX`, NOT including the checksum byte — and the
checksum is the XOR of everything before it. -/
def create_data_request (seq addr : Nat) (info : List Nat) : List Nat :=
  let total_length := 9 + info.length
  let frame := [DLE, STX, seq] ++ toBytes2 addr ++ toBytes2 total_length
                ++ info ++ [DLE, ETX]
  frame ++ [calculate_cks frame]

/-- `NTCIPServer.create_ack_frame`: `DLE ACK seq addr(2,BE) len(2,BE)=8`
followed by the XOR checksum of those 7 bytes (the length field counts
the checksum byte). -/
def create_ack_frame (seq addr : Nat) : List Nat :=
  let frame := [DLE, ACK, seq] ++ toBytes2 addr ++ toBytes2 8
  frame ++ [calculate_cks frame]

/-- `NTCIPServer.create_nak_frame`: `DLE NAK seq addr(2,BE) len(2,BE)=9
err` followed by the XOR checksum of those 8 bytes. -/
def create_nak_frame (seq addr err_code : Nat) : List Nat :=
  let frame := [DLE, NAK, seq] ++ toBytes2 addr ++ toBytes2 9 ++ [err_code]
  frame ++ [calculate_cks frame]

/-- The requested-versus-local clock drift computed by the time-sync
handler: `abs((hour*3600 + minute*60 + second) - (local_hour*3600 +
local_min*60 + local_sec))`, with the requested fields read from
`msg_data[4]`, `msg_data[5]`, `msg_data[6]`. -/
def timeDrift (msg_data : List Nat) (localHour localMin localSec : Nat) : Nat :=
  ((msg_data.getD 4 0 * 3600 + msg_data.getD 5 0 * 60 + msg_data.getD 6 0 : Int)
    - (localHour * 3600 + localMin * 60 + localSec : Int)).natAbs

/-- `NTCIPServer._create_setting_response`: `None` unless the command id
has exactly two bytes, else the Data frame
`DLE STX seq 00 01 00 0E 0F 80 cmd0 cmd1 DLE ETX cks`.
A `seq` above 255 would make `bytearray` raise `ValueError`, which the
`except` clause of `process_message` turns into `None`; the raise is
modelled directly as `none`. -/
def create_setting_response (command_id : List Nat) (seq : Nat) : Option (List Nat) :=
  if command_id.length ≠ 2 then none
  else if 256 ≤ seq then none
  else
    let response := [DLE, STX, seq, 0x00, 0x01, 0x00, 0x0E, 0x0F, 0x80,
                     command_id.getD 0 0, command_id.getD 1 0, DLE, ETX]
    some (response ++ [calculate_cks response])

/-- `NTCIPServer._handle_basic_message`.
Code `0x10` (reset): the fixed reply `DLE STX seq 00 01 00 0E 0F 90 52 52
DLE ETX cks`, whatever `msg_data` holds.
Code `0x12` (time sync): `None` unless `msg_data` has exactly 7 bytes
(`year month day weekday hour minute second`; `year` is read but not
validated); `None` unless `1 ≤ month ≤ 12`, `1 ≤ day ≤ 31`,
`1 ≤ weekday ≤ 7`, `hour ≤ 23`, `minute ≤ 59`, `second ≤ 59` (the Python
lower bounds `0 <= hour` etc. are vacuous for bytes); then if the drift
exceeds 3 seconds reply `DLE STX seq 00 01 00 0E 0F 92 min(drift,128) DLE
ETX cks`, else the `0F 80` setting response for command id `0F 12`.
Any other code: `None`.  As in `create_setting_response`, a `seq` that
`bytearray` would reject is modelled as `none`. -/
def handle_basic_message (msg_code : Nat) (msg_data : List Nat) (seq : Nat)
    (localHour localMin localSec : Nat) : Option (List Nat) :=
  if msg_code = 0x10 then
    if 256 ≤ seq then none
    else
      let response := [DLE, STX, seq, 0x00, 0x01, 0x00, 0x0E,
                       0x0F, 0x90, 0x52, 0x52, DLE, ETX]
      some (response ++ [calculate_cks response])
  else if msg_code = 0x12 then
    if msg_data.length ≠ 7 then none
    else
      let month := msg_data.getD 1 0
      let day := msg_data.getD 2 0
      let week := msg_data.getD 3 0
      let hour := msg_data.getD 4 0
      let minute := msg_data.getD 5 0
      let second := msg_data.getD 6 0
      if ¬(1 ≤ month ∧ month ≤ 12 ∧ 1 ≤ day ∧ day ≤ 31 ∧ 1 ≤ week ∧ week ≤ 7 ∧
            hour ≤ 23 ∧ minute ≤ 59 ∧ second ≤ 59) then none
      else
        let time_diff := timeDrift msg_data localHour localMin localSec
        if 3 < time_diff then
          if 256 ≤ seq then none
          else
            let response := [DLE, STX, seq, 0x00, 0x01, 0x00, 0x0E,
                             0x0F, 0x92, min time_diff 128, DLE, ETX]
            some (response ++ [calculate_cks response])
        else create_setting_response [0x0F, 0x12] seq
  else none

/-- `NTCIPServer._handle_signal_message`: reserved route, always `None`. -/
def handle_signal_message (_msg_code : Nat) (_msg_data : List Nat) : Option (List Nat) :=
  none

/-- `NTCIPServer._handle_detector_message`: reserved route, always `None`. -/
def handle_detector_message (_msg_code : Nat) (_msg_data : List Nat) : Option (List Nat) :=
  none

/-- `NTCIPServer.process_message`: `None` for an empty `info` (an Ack);
split `info` into `(type, code, data)` (`None` when that fails); route
type `0x0F` to the basic handler, `0x5F` and `0x6F` to the reserved
handlers, anything else to `None`. -/
def process_message (frame : Frame) (localHour localMin localSec : Nat) :
    Option (List Nat) :=
  if frame.info = [] then none
  else
    match parse_message_type frame.info with
    | none => none
    | some (msg_type, msg_code, msg_data) =>
      if msg_type = 0x0F then
        handle_basic_message msg_code msg_data frame.seq localHour localMin localSec
      else if msg_type = 0x5F then handle_signal_message msg_code msg_data
      else if msg_type = 0x6F then handle_detector_message msg_code msg_data
      else none

/-- The seq/addr/error-code salvage of `NTCIPServer.handle_client` when
`parse_frame` returned `None`: inputs shorter than 7 bytes get
`(0, 0, 0x02)`; a bad first byte or a non-`STX` second byte gets
`(0, 0, 0x01)`; otherwise seq and addr are lifted from the raw bytes with
error code `0x02`. -/
def salvage_nak_fields (data : List Nat) : Nat × Nat × Nat :=
  if data.length < 7 then (0, 0, 0x02)
  else if pyGet data 0 ≠ some DLE then (0, 0, 0x01)
  else if pyGet data 1 ≠ some STX then (0, 0, 0x01)
  else ((pyGet data 2).getD 0,
        (pyGet data 3).getD 0 * 256 + (pyGet data 4).getD 0, 0x02)

/-- What the session sends in reaction to one received byte string. -/
inductive SessionAction where
  | crash : SessionAction
  | nak : List Nat → SessionAction
  | ackOnly : List Nat → SessionAction
  | ackReply : List Nat → List Nat → SessionAction
deriving DecidableEq

/-- One iteration of the receive loop of `NTCIPServer.handle_client`, up
to and including the reply Data frame: a parse failure is answered with a
Nak built from the salvaged fields; a decoded frame whose `addr` is the
reserved invalid value `0xFFFF` is answered with a Nak carrying error
code `0x04`; otherwise the server sends an Ack and, when the dispatcher
produces one, the reply Data frame.  An uncaught `IndexError` from the
parser propagates (the enclosing `except` closes the connection without
sending anything). -/
def handle_client_step (data : List Nat) (localHour localMin localSec : Nat) :
    SessionAction :=
  match parse_frame data with
  | .crash => .crash
  | .fail =>
    match salvage_nak_fields data with
    | (seq, addr, err) => .nak (create_nak_frame seq addr err)
  | .ok frame =>
    if frame.addr = 0xFFFF then .nak (create_nak_frame frame.seq frame.addr 0x04)
    else
      match process_message frame localHour localMin localSec with
      | some response => .ackReply (create_ack_frame frame.seq frame.addr) response
      | none => .ackOnly (create_ack_frame frame.seq frame.addr)

/-- The `info` (payload) region of an encoded Data frame: everything
strictly between the length field and the trailing `DLE ETX cks`. -/
def infoBytes (frame : List Nat) : List Nat :=
  (frame.take (frame.length - 3)).drop 7

/-- An in-range non-negative Python index reads the list. -/
lemma pyGet_eq_getD (l : List Nat) (i : Int) (hi : 0 ≤ i)
    (h : i < (l.length : Int)) : pyGet l i = some (l.getD i.toNat 0) := by
  unfold pyGet
  rw [if_neg (by omega), List.getD_eq_getElem?_getD,
    List.getElem?_eq_getElem (by omega)]
  rfl

/-- A non-negative Python index at or past the end raises `IndexError`. -/
lemma pyGet_none_of_ge (l : List Nat) (i : Int) (hi : 0 ≤ i)
    (h : (l.length : Int) ≤ i) : pyGet l i = none := by
  unfold pyGet
  rw [if_neg (by omega)]
  exact List.getElem?_eq_none (by omega)

/-- Any Python index in `[-len, len)` reads successfully. -/
lemma pyGet_total (l : List Nat) (i : Int) (h1 : -(l.length : Int) ≤ i)
    (h2 : i < (l.length : Int)) : ∃ b, pyGet l i = some b := by
  unfold pyGet
  by_cases hneg : i < 0
  · rw [if_pos hneg, if_pos (by omega)]
    exact ⟨_, List.getElem?_eq_getElem (by omega)⟩
  · rw [if_neg hneg]
    exact ⟨_, List.getElem?_eq_getElem (by omega)⟩

/-- `_parse_ack_frame` never raises: every access is guarded by the
exact-length check. -/
lemma parse_ack_frame_ne_crash (data : List Nat) :
    parse_ack_frame data ≠ ParseResult.crash := by
  unfold parse_ack_frame
  by_cases h8 : data.length ≠ 8
  · rw [if_pos h8]; exact fun hc => ParseResult.noConfusion hc
  · rw [if_neg h8]
    have hl : data.length = 8 := not_not.mp h8
    obtain ⟨b2, hb2⟩ := pyGet_total data 2 (by omega) (by omega)
    obtain ⟨b3, hb3⟩ := pyGet_total data 3 (by omega) (by omega)
    obtain ⟨b4, hb4⟩ := pyGet_total data 4 (by omega) (by omega)
    obtain ⟨b5, hb5⟩ := pyGet_total data 5 (by omega) (by omega)
    obtain ⟨b6, hb6⟩ := pyGet_total data 6 (by omega) (by omega)
    obtain ⟨bl, hbl⟩ := pyGet_total data (-1) (by omega) (by omega)
    rw [hb2, hb3, hb4, hb5, hb6, hbl]
    dsimp only
    split_ifs <;> exact fun hc => ParseResult.noConfusion hc

/-- `_parse_nak_frame` never raises: every access is guarded by the
exact-length check. -/
lemma parse_nak_frame_ne_crash (data : List Nat) :
    parse_nak_frame data ≠ ParseResult.crash := by
  unfold parse_nak_frame
  by_cases h9 : data.length ≠ 9
  · rw [if_pos h9]; exact fun hc => ParseResult.noConfusion hc
  · rw [if_neg h9]
    have hl : data.length = 9 := not_not.mp h9
    obtain ⟨b0, hb0⟩ := pyGet_total data 0 (by omega) (by omega)
    obtain ⟨b1, hb1⟩ := pyGet_total data 1 (by omega) (by omega)
    obtain ⟨b2, hb2⟩ := pyGet_total data 2 (by omega) (by omega)
    obtain ⟨b3, hb3⟩ := pyGet_total data 3 (by omega) (by omega)
    obtain ⟨b4, hb4⟩ := pyGet_total data 4 (by omega) (by omega)
    obtain ⟨b5, hb5⟩ := pyGet_total data 5 (by omega) (by omega)
    obtain ⟨b6, hb6⟩ := pyGet_total data 6 (by omega) (by omega)
    obtain ⟨b7, hb7⟩ := pyGet_total data 7 (by omega) (by omega)
    obtain ⟨bl, hbl⟩ := pyGet_total data (-1) (by omega) (by omega)
    rw [hb0, hb1, hb2, hb3, hb4, hb5, hb6, hb7, hbl]
    dsimp only
    split_ifs <;> exact fun hc => ParseResult.noConfusion hc

/-- On at least seven bytes, `_parse_normal_frame` never raises: the
length-field read succeeds, and the end-code reads are covered by the
`len(data) >= length` guard (or wrap around as small negative indices). -/
lemma parse_normal_frame_ne_crash (data : List Nat) (h7 : 7 ≤ data.length) :
    parse_normal_frame data ≠ ParseResult.crash := by
  obtain ⟨b5, hb5⟩ := pyGet_total data 5 (by omega) (by omega)
  obtain ⟨b6, hb6⟩ := pyGet_total data 6 (by omega) (by omega)
  unfold parse_normal_frame
  rw [hb5, hb6]
  dsimp only
  by_cases hlen : data.length < b5 * 256 + b6
  · rw [if_pos hlen]; exact fun hc => ParseResult.noConfusion hc
  · rw [if_neg hlen]
    obtain ⟨e1, he1⟩ := pyGet_total data (((b5 * 256 + b6 : Nat) : Int) - 3)
      (by omega) (by omega)
    rw [he1]
    dsimp only
    by_cases hd : e1 ≠ DLE
    · rw [if_pos hd]; exact fun hc => ParseResult.noConfusion hc
    · rw [if_neg hd]
      obtain ⟨e2, he2⟩ := pyGet_total data (((b5 * 256 + b6 : Nat) : Int) - 2)
        (by omega) (by omega)
      rw [he2]
      dsimp only
      by_cases he : e2 ≠ ETX
      · rw [if_pos he]; exact fun hc => ParseResult.noConfusion hc
      · rw [if_neg he]
        obtain ⟨bl, hbl⟩ := pyGet_total data (-1) (by omega) (by omega)
        rw [hbl]
        dsimp only
        by_cases hck : calculate_cks (pySlice data 0 (-1)) ≠ bl
        · rw [if_pos hck]; exact fun hc => ParseResult.noConfusion hc
        · rw [if_neg hck]
          obtain ⟨c2, hc2⟩ := pyGet_total data 2 (by omega) (by omega)
          obtain ⟨c3, hc3⟩ := pyGet_total data 3 (by omega) (by omega)
          obtain ⟨c4, hc4⟩ := pyGet_total data 4 (by omega) (by omega)
          rw [hc2, hc3, hc4]
          exact fun hc => ParseResult.noConfusion hc

/-- On exactly six bytes, the read of `data[6]` in `_parse_normal_frame`
raises `IndexError`. -/
lemma parse_normal_frame_crash_of_six (data : List Nat) (h : data.length = 6) :
    parse_normal_frame data = ParseResult.crash := by
  obtain ⟨b5, hb5⟩ := pyGet_total data 5 (by omega) (by omega)
  have h6 : pyGet data 6 = none := pyGet_none_of_ge data 6 (by omega) (by omega)
  unfold parse_normal_frame
  rw [hb5, h6]

/-- C1: the Data-frame round trip fails on the code: `create_data_request`
writes a length field that excludes the trailing checksum byte while
`_parse_normal_frame` expects a length field that includes it, so the
end-code check looks two bytes too early and rejects every encoded Data
frame.  Evaluated here at `seq = 1`, `addr = 1` with the empty payload and
with the 7-byte payload used by the repository's own encoder test. -/
theorem create_data_request_roundtrip_fails :
    parse_frame (create_data_request 1 1 []) = ParseResult.fail ∧
    parse_frame (create_data_request 1 1 [0x0F, 0x80, 0x01, 0x02, 0x03, 0x04, 0x05])
      = ParseResult.fail := by
  decide

/-- C2 counterexample: a 16-byte input whose embedded length field is 14
is decoded successfully (two trailing `0x00` bytes beyond the frame do not
disturb the end-code check, and the XOR of all-but-last bytes still equals
the last byte), refuting the claim that decode rejects whenever the
observed byte count disagrees with the length field. -/
theorem parse_frame_accepts_oversized :
    parse_frame [0xAA, 0xBB, 0x01, 0x00, 0x01, 0x00, 0x0E, 0x0F, 0x90, 0x52,
        0x52, 0xAA, 0xCC, 0xE6, 0x00, 0x00]
      = ParseResult.ok ⟨1, 1, 14, [0x0F, 0x90, 0x52, 0x52]⟩ ∧
    ([0xAA, 0xBB, 0x01, 0x00, 0x01, 0x00, 0x0E, 0x0F, 0x90, 0x52, 0x52, 0xAA,
        0xCC, 0xE6, 0x00, 0x00] : List Nat).length ≠ 14 := by
  decide

/-- C2 (amended): the decoder's only length-field validation is one-sided —
a Data frame is rejected whenever the observed byte count is strictly
smaller than the embedded length field (inputs longer than the length
field can still decode). -/
theorem parse_frame_rejects_short_of_length_field (data : List Nat)
    (h7 : 7 ≤ data.length) (h0 : data.getD 0 0 = DLE) (h1 : data.getD 1 0 = STX)
    (hshort : data.length < data.getD 5 0 * 256 + data.getD 6 0) :
    parse_frame data = ParseResult.fail := by
  unfold parse_frame
  rw [if_neg (by omega), pyGet_eq_getD data 0 (by omega) (by omega)]
  simp only [Int.toNat_zero]
  try dsimp only
  rw [if_neg (not_not_intro h0), pyGet_eq_getD data 1 (by omega) (by omega)]
  simp only [Int.toNat_one]
  try dsimp only
  rw [if_pos h1]
  unfold parse_normal_frame
  rw [pyGet_eq_getD data 5 (by omega) (by omega),
    pyGet_eq_getD data 6 (by omega) (by omega)]
  simp only [show (5 : Int).toNat = 5 from rfl, show (6 : Int).toNat = 6 from rfl]
  try dsimp only
  rw [if_pos hshort]

/-- C2 (amended) witness: a 7-byte `DLE STX` input whose length field
is 9 is rejected. -/
theorem parse_frame_rejects_short_of_length_field_witness :
    parse_frame [0xAA, 0xBB, 0, 0, 0, 0, 9] = ParseResult.fail :=
  parse_frame_rejects_short_of_length_field [0xAA, 0xBB, 0, 0, 0, 0, 9]
    (by decide) (by decide) (by decide) (by decide)

/-- C3 counterexample: a 6-byte input beginning `DLE STX` passes the
minimum-length check but raises `IndexError` at `data[6]` inside
`_parse_normal_frame`, refuting the claim that no input causes decode to
escalate beyond a recoverable decode failure. -/
theorem parse_frame_crashes_on_six_byte_stx :
    parse_frame [0xAA, 0xBB, 0, 0, 0, 0] = ParseResult.crash := by
  decide

/-- C3 (amended): inputs of fewer than 6 bytes are rejected recoverably,
and decode raises (escalates beyond a recoverable failure) exactly on the
6-byte inputs that begin `DLE STX`. -/
theorem parse_frame_total_except_six_byte_stx (data : List Nat) :
    (data.length < 6 → parse_frame data = ParseResult.fail) ∧
    (parse_frame data = ParseResult.crash ↔
      data.length = 6 ∧ data.getD 0 0 = DLE ∧ data.getD 1 0 = STX) := by
  constructor
  · intro h
    unfold parse_frame
    rw [if_pos h]
  · constructor
    · intro hc
      unfold parse_frame at hc
      by_cases h6 : data.length < 6
      · rw [if_pos h6] at hc; exact ParseResult.noConfusion hc
      · rw [if_neg h6, pyGet_eq_getD data 0 (by omega) (by omega)] at hc
        simp only [Int.toNat_zero] at hc
        try dsimp only at hc
        by_cases hD : data.getD 0 0 ≠ DLE
        · rw [if_pos hD] at hc; exact ParseResult.noConfusion hc
        · rw [if_neg hD, pyGet_eq_getD data 1 (by omega) (by omega)] at hc
          simp only [Int.toNat_one] at hc
          try dsimp only at hc
          by_cases hS : data.getD 1 0 = STX
          · rw [if_pos hS] at hc
            by_cases hlen : data.length = 6
            · exact ⟨hlen, not_not.mp hD, hS⟩
            · exact absurd hc (parse_normal_frame_ne_crash data (by omega))
          · rw [if_neg hS] at hc
            by_cases hA : data.getD 1 0 = ACK
            · rw [if_pos hA] at hc
              exact absurd hc (parse_ack_frame_ne_crash data)
            · rw [if_neg hA] at hc
              by_cases hN : data.getD 1 0 = NAK
              · rw [if_pos hN] at hc
                exact absurd hc (parse_nak_frame_ne_crash data)
              · rw [if_neg hN] at hc; exact ParseResult.noConfusion hc
    · rintro ⟨h6, h0, h1⟩
      unfold parse_frame
      rw [if_neg (by omega), pyGet_eq_getD data 0 (by omega) (by omega)]
      simp only [Int.toNat_zero]
      try dsimp only
      rw [if_neg (not_not_intro h0), pyGet_eq_getD data 1 (by omega) (by omega)]
      simp only [Int.toNat_one]
      try dsimp only
      rw [if_pos h1]
      exact parse_normal_frame_crash_of_six data h6

/-- C3 (amended) witness: a one-byte input is rejected recoverably, and a
6-byte `DLE STX` input is exactly the crash case. -/
theorem parse_frame_total_except_six_byte_stx_witness :
    parse_frame [0xAA] = ParseResult.fail ∧
    parse_frame [0xAA, 0xBB, 1, 2, 3, 4] = ParseResult.crash :=
  ⟨(parse_frame_total_except_six_byte_stx [0xAA]).1 (by decide),
   (parse_frame_total_except_six_byte_stx [0xAA, 0xBB, 1, 2, 3, 4]).2.mpr
     (by decide)⟩

/-- C7 counterexample: a well-formed 9-byte Nak frame whose checksum over
the first 8 bytes matches the trailing byte but whose error-code byte is
`0x03` is rejected, because `_parse_nak_frame` only admits the error codes
`0x01, 0x02, 0x04, 0x08`. -/
theorem parse_nak_rejects_unknown_error_code :
    xorBytes [0xAA, 0xEE, 0x00, 0x00, 0x00, 0x00, 0x09, 0x03] = 0x4E ∧
    parse_frame [0xAA, 0xEE, 0x00, 0x00, 0x00, 0x00, 0x09, 0x03, 0x4E]
      = ParseResult.fail := by
  decide

/-- C7 (amended): decoding a 9-byte Nak frame whose embedded length field
equals 9 and whose trailing byte is the XOR of the first 8 bytes succeeds
with the single error-code byte as payload — provided the error code is
one of the four admitted values `0x01, 0x02, 0x04, 0x08`. -/
theorem parse_nak_frame_roundtrip (seq a1 a2 err : Nat) ( _hs : seq ≤ 255)
    ( _h1 : a1 ≤ 255) ( _h2 : a2 ≤ 255)
    (he : err ∈ [0x01, 0x02, 0x04, 0x08]) :
    parse_frame ([0xAA, 0xEE, seq, a1, a2, 0x00, 0x09, err]
        ++ [xorBytes [0xAA, 0xEE, seq, a1, a2, 0x00, 0x09, err]])
      = ParseResult.ok ⟨seq, a1 * 256 + a2, 9, [err]⟩ := by
  fin_cases he <;>
    simp [parse_frame, parse_nak_frame, pyGet, pySlice, pySliceBound,
      calculate_cks, xorBytes, DLE, STX, ETX, ACK, NAK]

/-- C7 (amended) witness: the round trip at `seq = 1`, `addr = 1`,
error code `0x02`. -/
theorem parse_nak_frame_roundtrip_witness :
    parse_frame ([0xAA, 0xEE, 1, 0, 1, 0x00, 0x09, 2]
        ++ [xorBytes [0xAA, 0xEE, 1, 0, 1, 0x00, 0x09, 2]])
      = ParseResult.ok ⟨1, 0 * 256 + 1, 9, [2]⟩ :=
  parse_nak_frame_roundtrip 1 0 1 2 (by decide) (by decide) (by decide)
    (by decide)

/-- C9: Ack and Nak frames built by the server round-trip through the
decoder: for any byte `seq` and 16-bit `addr`, decoding
`create_ack_frame seq addr` yields that seq and addr with empty payload,
and for any admitted error code decoding `create_nak_frame seq addr err`
yields that seq, addr and the one-byte error-code payload. -/
theorem ack_nak_frame_roundtrip (seq addr err : Nat) ( _hseq : seq ≤ 255)
    (haddr : addr ≤ 65535) (he : err ∈ [0x01, 0x02, 0x04, 0x08]) :
    parse_frame (create_ack_frame seq addr) = ParseResult.ok ⟨seq, addr, 8, []⟩ ∧
    parse_frame (create_nak_frame seq addr err)
      = ParseResult.ok ⟨seq, addr, 9, [err]⟩ := by
  have hsplit : addr / 256 % 256 * 256 + addr % 256 = addr := by omega
  constructor
  · simp [create_ack_frame, toBytes2, parse_frame, parse_ack_frame, pyGet,
      pySlice, pySliceBound, calculate_cks, xorBytes, DLE, STX, ETX, ACK, NAK,
      Frame.mk.injEq, hsplit]
  · fin_cases he <;>
      simp [create_nak_frame, toBytes2, parse_frame, parse_nak_frame, pyGet,
        pySlice, pySliceBound, calculate_cks, xorBytes, DLE, STX, ETX, ACK, NAK,
        Frame.mk.injEq, hsplit]

/-- C9 witness: the Ack and Nak round trips at `seq = 5`, `addr = 258`,
error code `0x08`. -/
theorem ack_nak_frame_roundtrip_witness :
    parse_frame (create_ack_frame 5 258) = ParseResult.ok ⟨5, 258, 8, []⟩ ∧
    parse_frame (create_nak_frame 5 258 8) = ParseResult.ok ⟨5, 258, 9, [8]⟩ :=
  ack_nak_frame_roundtrip 5 258 8 (by decide) (by decide) (by decide)

/-- C4 counterexample: on a 7-byte input whose first byte is not `DLE` the
session sends a Nak whose error-code byte (index 7) is `0x01`
(start-code error), not `0x02` as claimed. -/
theorem handle_client_nak_code_counterexample :
    handle_client_step [0, 0, 0, 0, 0, 0, 0] 0 0 0
      = SessionAction.nak (create_nak_frame 0 0 0x01) ∧
    (create_nak_frame 0 0 0x01).getD 7 0 = 0x01 ∧
    (create_nak_frame 0 0 0x01).getD 7 0 ≠ 0x02 := by
  decide

/-- C4 (amended): the session's Nak error codes are: `0x01` for an input
of at least 7 bytes whose first byte is not `DLE`; `0x02` for a rejected
input shorter than 7 bytes; `0x04` for a decoded frame whose address is
the reserved invalid value `0xFFFF`. -/
theorem handle_client_nak_code_mapping (data : List Nat) (lh lm ls : Nat) :
    (7 ≤ data.length → data.getD 0 0 ≠ DLE →
      handle_client_step data lh lm ls
        = SessionAction.nak (create_nak_frame 0 0 0x01)) ∧
    (data.length < 7 → parse_frame data = ParseResult.fail →
      handle_client_step data lh lm ls
        = SessionAction.nak (create_nak_frame 0 0 0x02)) ∧
    (∀ frame, parse_frame data = ParseResult.ok frame → frame.addr = 0xFFFF →
      handle_client_step data lh lm ls
        = SessionAction.nak (create_nak_frame frame.seq 0xFFFF 0x04)) := by
  refine ⟨?_, ?_, ?_⟩
  · intro h7 hD
    have hp : parse_frame data = ParseResult.fail := by
      unfold parse_frame
      rw [if_neg (by omega), pyGet_eq_getD data 0 (by omega) (by omega)]
      simp only [Int.toNat_zero]
      try dsimp only
      rw [if_pos hD]
    have hpy : pyGet data 0 ≠ some DLE := by
      rw [pyGet_eq_getD data 0 (by omega) (by omega)]
      simpa [Int.toNat_zero] using hD
    have hsal : salvage_nak_fields data = (0, 0, 0x01) := by
      unfold salvage_nak_fields
      rw [if_neg (by omega), if_pos hpy]
    unfold handle_client_step
    rw [hp]
    try dsimp only
    rw [hsal]
  · intro h7 hp
    have hsal : salvage_nak_fields data = (0, 0, 0x02) := by
      unfold salvage_nak_fields
      rw [if_pos h7]
    unfold handle_client_step
    rw [hp]
    try dsimp only
    rw [hsal]
  · intro frame hok haddr
    unfold handle_client_step
    rw [hok]
    try dsimp only
    rw [haddr, if_pos rfl]

/-- C4 (amended) witness: the three Nak codes at concrete inputs — seven
zero bytes, a single byte, and a well-formed Nak frame addressed to
`0xFFFF`. -/
theorem handle_client_nak_code_mapping_witness :
    handle_client_step [0, 0, 0, 0, 0, 0, 0] 1 2 3
      = SessionAction.nak (create_nak_frame 0 0 0x01) ∧
    handle_client_step [0xAA] 1 2 3
      = SessionAction.nak (create_nak_frame 0 0 0x02) ∧
    handle_client_step [0xAA, 0xEE, 0x01, 0xFF, 0xFF, 0x00, 0x09, 0x04, 0x48]
      1 2 3 = SessionAction.nak (create_nak_frame 1 0xFFFF 0x04) :=
  ⟨(handle_client_nak_code_mapping [0, 0, 0, 0, 0, 0, 0] 1 2 3).1
      (by decide) (by decide),
   (handle_client_nak_code_mapping [0xAA] 1 2 3).2.1 (by decide) (by decide),
   (handle_client_nak_code_mapping
      [0xAA, 0xEE, 0x01, 0xFF, 0xFF, 0x00, 0x09, 0x04, 0x48] 1 2 3).2.2
      ⟨1, 0xFFFF, 9, [0x04]⟩ (by decide) (by decide)⟩

/-- C5: dispatching the time-sync command `(0x0F, 0x12)` with exactly 7
in-range data bytes replies with payload `0F 92 min(drift,128)` when the
drift exceeds 3 seconds and with the setting-accepted payload
`0F 80 0F 12` otherwise; a wrong byte count or an out-of-range field
yields no reply. -/
theorem time_sync_dispatch (msg_data : List Nat) (seq lh lm ls : Nat)
    (hseq : seq ≤ 255) :
    (msg_data.length = 7 ∧
        (1 ≤ msg_data.getD 1 0 ∧ msg_data.getD 1 0 ≤ 12 ∧
         1 ≤ msg_data.getD 2 0 ∧ msg_data.getD 2 0 ≤ 31 ∧
         1 ≤ msg_data.getD 3 0 ∧ msg_data.getD 3 0 ≤ 7 ∧
         msg_data.getD 4 0 ≤ 23 ∧ msg_data.getD 5 0 ≤ 59 ∧
         msg_data.getD 6 0 ≤ 59) →
      (handle_basic_message 0x12 msg_data seq lh lm ls).map infoBytes =
        some (if 3 < timeDrift msg_data lh lm ls
              then [0x0F, 0x92, min (timeDrift msg_data lh lm ls) 128]
              else [0x0F, 0x80, 0x0F, 0x12])) ∧
    (msg_data.length ≠ 7 →
      handle_basic_message 0x12 msg_data seq lh lm ls = none) ∧
    (¬(1 ≤ msg_data.getD 1 0 ∧ msg_data.getD 1 0 ≤ 12 ∧
         1 ≤ msg_data.getD 2 0 ∧ msg_data.getD 2 0 ≤ 31 ∧
         1 ≤ msg_data.getD 3 0 ∧ msg_data.getD 3 0 ≤ 7 ∧
         msg_data.getD 4 0 ≤ 23 ∧ msg_data.getD 5 0 ≤ 59 ∧
         msg_data.getD 6 0 ≤ 59) →
      handle_basic_message 0x12 msg_data seq lh lm ls = none) := by
  refine ⟨?_, ?_, ?_⟩
  · rintro ⟨hlen, hr⟩
    unfold handle_basic_message
    rw [if_neg (by decide), if_pos rfl, if_neg (not_not_intro hlen)]
    try dsimp only
    rw [if_neg (not_not_intro hr)]
    by_cases h3 : 3 < timeDrift msg_data lh lm ls
    · rw [if_pos h3, if_neg (by omega), if_pos h3]
      simp [infoBytes]
    · rw [if_neg h3]
      unfold create_setting_response
      rw [if_neg (by decide), if_neg (by omega), if_neg h3]
      simp [infoBytes]
  · intro hlen
    unfold handle_basic_message
    rw [if_neg (by decide), if_pos rfl, if_pos hlen]
  · intro hr
    unfold handle_basic_message
    rw [if_neg (by decide), if_pos rfl]
    by_cases hlen : msg_data.length ≠ 7
    · rw [if_pos hlen]
    · rw [if_neg hlen]
      try dsimp only
      rw [if_pos hr]

/-- C5 witness: with the peer clock 4 seconds ahead of the local clock the
drift report `0F 92 04` is produced, an empty data field yields no reply,
and a zero month yields no reply. -/
theorem time_sync_dispatch_witness :
    (handle_basic_message 0x12 [25, 1, 1, 1, 0, 0, 4] 1 0 0 0).map infoBytes =
      some (if 3 < timeDrift [25, 1, 1, 1, 0, 0, 4] 0 0 0
            then [0x0F, 0x92, min (timeDrift [25, 1, 1, 1, 0, 0, 4] 0 0 0) 128]
            else [0x0F, 0x80, 0x0F, 0x12]) ∧
    handle_basic_message 0x12 [] 1 0 0 0 = none ∧
    handle_basic_message 0x12 [25, 0, 1, 1, 0, 0, 4] 1 0 0 0 = none :=
  ⟨(time_sync_dispatch [25, 1, 1, 1, 0, 0, 4] 1 0 0 0 (by decide)).1
      (by decide),
   (time_sync_dispatch [] 1 0 0 0 (by decide)).2.1 (by decide),
   (time_sync_dispatch [25, 0, 1, 1, 0, 0, 4] 1 0 0 0 (by decide)).2.2
      (by decide)⟩

/-- C6: dispatching the reset command `(0x0F, 0x10)` always produces a
reply whose payload is exactly `0F 90 52 52`, whatever the data bytes. -/
theorem reset_dispatch (msg_data : List Nat) (seq lh lm ls : Nat)
    (hseq : seq ≤ 255) :
    (handle_basic_message 0x10 msg_data seq lh lm ls).map infoBytes =
      some [0x0F, 0x90, 0x52, 0x52] := by
  unfold handle_basic_message
  rw [if_pos rfl, if_neg (by omega)]
  simp [infoBytes]

/-- C6 witness: the reset reply payload at `seq = 1` with arbitrary data
bytes. -/
theorem reset_dispatch_witness :
    (handle_basic_message 0x10 [7, 7, 7] 1 0 0 0).map infoBytes =
      some [0x0F, 0x90, 0x52, 0x52] :=
  reset_dispatch [7, 7, 7] 1 0 0 0 (by decide)

/-- Every reply Data frame produced by the dispatcher starts
`DLE STX seq 00 01 00 0E`: byte 2 is the seq of the frame being answered
and bytes 3-4 are the hard-coded address `0x0001`. -/
lemma process_message_reply_header (frame : Frame) (lh lm ls : Nat)
    (reply : List Nat) (h : process_message frame lh lm ls = some reply) :
    reply.getD 2 0 = frame.seq ∧ reply.getD 3 0 = 0x00 ∧
      reply.getD 4 0 = 0x01 := by
  unfold process_message parse_message_type at h
  by_cases hi : frame.info = []
  · rw [if_pos hi] at h; exact Option.noConfusion h
  · rw [if_neg hi] at h
    by_cases hl : frame.info.length < 2
    · rw [if_pos hl] at h; exact Option.noConfusion h
    · rw [if_neg hl] at h
      try dsimp only at h
      unfold handle_basic_message handle_signal_message handle_detector_message
        create_setting_response at h
      try dsimp only at h
      split_ifs at h <;>
        first
          | exact Option.noConfusion h
          | (obtain rfl := Option.some.inj h; exact ⟨rfl, rfl, rfl⟩)

/-- C8: every reply Data frame carries the seq byte of the inbound Data
frame it answers (byte 2 of the reply equals the decoded frame's seq). -/
theorem reply_seq_echoes_request (frame : Frame) (lh lm ls : Nat)
    (reply : List Nat) (h : process_message frame lh lm ls = some reply) :
    reply.getD 2 0 = frame.seq :=
  (process_message_reply_header frame lh lm ls reply h).1

/-- C8 witness: the reset reply to a frame with `seq = 1` carries seq 1. -/
theorem reply_seq_echoes_request_witness :
    ([0xAA, 0xBB, 0x01, 0x00, 0x01, 0x00, 0x0E, 0x0F, 0x90, 0x52, 0x52, 0xAA,
      0xCC, 0xE6] : List Nat).getD 2 0 = 1 :=
  reply_seq_echoes_request ⟨1, 1, 14, [0x0F, 0x10, 0x52, 0x52]⟩ 0 0 0
    [0xAA, 0xBB, 0x01, 0x00, 0x01, 0x00, 0x0E, 0x0F, 0x90, 0x52, 0x52, 0xAA,
      0xCC, 0xE6] (by decide)

/-- C10: every reply Data frame carries the hard-coded address field
`0x0001` (bytes 3-4 are `00 01`), whatever address the inbound frame
carried. -/
theorem reply_addr_constant (frame : Frame) (lh lm ls : Nat)
    (reply : List Nat) (h : process_message frame lh lm ls = some reply) :
    reply.getD 3 0 = 0x00 ∧ reply.getD 4 0 = 0x01 :=
  ⟨(process_message_reply_header frame lh lm ls reply h).2.1,
   (process_message_reply_header frame lh lm ls reply h).2.2⟩

/-- C10 witness: the reply to a reset frame addressed to `9` still carries
address `0x0001`. -/
theorem reply_addr_constant_witness :
    ([0xAA, 0xBB, 0x02, 0x00, 0x01, 0x00, 0x0E, 0x0F, 0x90, 0x52, 0x52, 0xAA,
      0xCC, 0xE5] : List Nat).getD 3 0 = 0x00 ∧
    ([0xAA, 0xBB, 0x02, 0x00, 0x01, 0x00, 0x0E, 0x0F, 0x90, 0x52, 0x52, 0xAA,
      0xCC, 0xE5] : List Nat).getD 4 0 = 0x01 :=
  reply_addr_constant ⟨2, 9, 14, [0x0F, 0x10]⟩ 0 0 0
    [0xAA, 0xBB, 0x02, 0x00, 0x01, 0x00, 0x0E, 0x0F, 0x90, 0x52, 0x52, 0xAA,
      0xCC, 0xE5] (by decide)

end NTCIP
